import Mathlib

/-!
# Verification of the EMSS hydro-plant simulation core

Shallow embedding of `src/domain/simulation.py` (class `EMSSSimulator` and
dataclass `SimulationConfig`). Python floats are modelled as exact rationals
(`ℚ`), Python ints as `ℤ` (the step counter, always non-negative, as `ℕ`).
`math.sin(2*math.pi*x)` is abstracted by an explicit function parameter
`sinFn : ℚ → ℚ` (theorems that need it assume `|sinFn x| ≤ 1`, a property of
the real sine). `datetime` values are modelled as integer minute offsets.
-/

namespace HydroEMSS

/-- Python `int(x)` on a float: truncation toward zero. -/
def pyInt (q : ℚ) : ℤ := if 0 ≤ q then ⌊q⌋ else -⌊-q⌋

/-- Python `a & b` (bitwise AND) for the non-negative operands that occur in
`_inflow_m3_per_step` (`self.step * time_step_minutes` with a positive
configured step length, and the constant `1440`). -/
def pyBitAnd (a b : ℤ) : ℤ := Int.ofNat (Nat.land a.toNat b.toNat)

/-- `SimulationConfig` (simulation.py lines 10-50), field for field. -/
structure SimulationConfig where
  time_step_minutes : ℤ
  num_days : ℤ
  max_turbine_kw : ℚ
  max_reservoir_m3 : ℚ
  min_reservoir_m3 : ℚ
  base_inflow_m3_per_hour : ℚ
  battery_capacity_kwh : ℚ
  max_charge_kw : ℚ
  max_discharge_kw : ℚ
  round_trip_efficiency : ℚ
  max_generator_kw : ℚ
  fuel_cost_per_kwh : ℚ
  num_standard_rooms : ℤ
  num_suite_rooms : ℤ
  standard_room_kw_per_room : ℚ
  suite_room_kw_per_room : ℚ
  restaurant_base_kw : ℚ
  restaurant_kw_per_customer : ℚ
  spa_base_kw : ℚ
  spa_kw_per_customer : ℚ
  lobby_base_kw : ℚ
  lobby_kw_per_customer : ℚ
deriving DecidableEq

/-- The dataclass defaults (simulation.py lines 10-50). -/
def defaultConfig : SimulationConfig where
  time_step_minutes := 15
  num_days := 7
  max_turbine_kw := 500
  max_reservoir_m3 := 100000
  min_reservoir_m3 := 5000
  base_inflow_m3_per_hour := 150
  battery_capacity_kwh := 1000
  max_charge_kw := 200
  max_discharge_kw := 200
  round_trip_efficiency := 0.9
  max_generator_kw := 400
  fuel_cost_per_kwh := 0.2
  num_standard_rooms := 20
  num_suite_rooms := 5
  standard_room_kw_per_room := 2.5
  suite_room_kw_per_room := 4
  restaurant_base_kw := 20
  restaurant_kw_per_customer := 0.5
  spa_base_kw := 10
  spa_kw_per_customer := 0.7
  lobby_base_kw := 8
  lobby_kw_per_customer := 0.2

/-- `self.time_step_hours = self.config.time_step_minutes / 60`
(simulation.py line 60; stored at construction, constant thereafter). -/
def timeStepHours (cfg : SimulationConfig) : ℚ := (cfg.time_step_minutes : ℚ) / 60

/-- Mutable simulator state (the attributes set in `reset`,
simulation.py lines 63-77). `timeMin` models `current_time` as a minute
offset from an arbitrary epoch. -/
structure SimState where
  step : ℕ
  timeMin : ℤ
  reservoir_level_m3 : ℚ
  battery_soc : ℚ
  standard_rooms_occupied : ℤ
  suite_rooms_occupied : ℤ
  restaurant_customers : ℤ
  spa_customers : ℤ
  lobby_customers : ℤ
deriving DecidableEq

/-- `reset` (simulation.py lines 63-77). `now` is the wall-clock minute at
which `datetime.now()` is sampled. -/
def resetState (cfg : SimulationConfig) (now : ℤ) : SimState where
  step := 0
  timeMin := now
  reservoir_level_m3 := cfg.max_reservoir_m3 * 0.5
  battery_soc := 0.5
  standard_rooms_occupied := 0
  suite_rooms_occupied := 0
  restaurant_customers := 0
  spa_customers := 0
  lobby_customers := 0

/-- `EMSSSimulator.__init__` (simulation.py lines 58-61): a Python call that
may raise is modelled with `Option`; the constructor performs no validation
and always succeeds, immediately calling `reset`. -/
def initSimulator (cfg : SimulationConfig) (now : ℤ) : Option SimState :=
  some (resetState cfg now)

/-! ## Battery helpers (simulation.py lines 404-472) -/

/-- `_charge_battery_with_surplus` (lines 404-445): returns
`(battery_kw, spilled_kw_from_surplus)`, `battery_kw ≤ 0` (charging). -/
def chargeBatteryWithSurplus (cfg : SimulationConfig) (soc surplus_hydro_kw : ℚ) :
    ℚ × ℚ :=
  let h := timeStepHours cfg
  let current_kwh := soc * cfg.battery_capacity_kwh
  let free_space_kwh := cfg.battery_capacity_kwh - current_kwh
  if free_space_kwh ≤ 0 then (0, surplus_hydro_kw)
  else
    let max_charge_this_step_kwh := cfg.max_charge_kw * h
    let available_kwh := surplus_hydro_kw * h
    let charge_kwh_stored :=
      min free_space_kwh
        (min max_charge_this_step_kwh (available_kwh * cfg.round_trip_efficiency))
    if charge_kwh_stored ≤ 0 then (0, surplus_hydro_kw)
    else
      let grid_energy_used_kwh := charge_kwh_stored / cfg.round_trip_efficiency
      let battery_kw := -grid_energy_used_kwh / h
      let used_surplus_kw := grid_energy_used_kwh / h
      (battery_kw, max 0 (surplus_hydro_kw - used_surplus_kw))

/-- `_discharge_battery_to_meet_load` (lines 447-472): discharge power
(positive kW) supplied toward the remaining load. -/
def dischargeBatteryToMeetLoad (cfg : SimulationConfig) (soc remaining_kw : ℚ) : ℚ :=
  let h := timeStepHours cfg
  let current_kwh := soc * cfg.battery_capacity_kwh
  if current_kwh ≤ 0 then 0
  else
    let max_discharge_this_step_kwh := cfg.max_discharge_kw * h
    let possible_discharge_kwh := min current_kwh max_discharge_this_step_kwh
    let discharge_kwh := min (remaining_kw * h) possible_discharge_kwh
    if discharge_kwh ≤ 0 then 0
    else discharge_kwh / h

/-- Result of `_dispatch` (lines 355-402). `charge_kw`/`discharge_kw` record
the two contributions that the source accumulates into `battery_kw`
(`battery_kw, spill = self._charge_battery_with_surplus(...)` then
`battery_kw += used_from_battery`); `battery_kw = charge_kw + discharge_kw`. -/
structure DispatchResult where
  hydro_kw : ℚ
  battery_kw : ℚ
  charge_kw : ℚ
  discharge_kw : ℚ
  generator_kw : ℚ
  spilled_kw : ℚ
  unserved_kw : ℚ
deriving DecidableEq

/-- `_dispatch` (simulation.py lines 355-402). -/
def dispatch (cfg : SimulationConfig) (soc demand_kw max_hydro_kw : ℚ) :
    DispatchResult :=
  let hydro_kw := min max_hydro_kw demand_kw
  let remaining := demand_kw - hydro_kw
  let surplus_hydro_kw := max 0 (max_hydro_kw - hydro_kw)
  let chargeRes :=
    if 0 < surplus_hydro_kw then chargeBatteryWithSurplus cfg soc surplus_hydro_kw
    else (0, 0)
  let charge_kw := chargeRes.1
  let spilled_kw := chargeRes.2
  let discharge_kw :=
    if 0 < remaining then dischargeBatteryToMeetLoad cfg soc remaining else 0
  let remaining2 := remaining - discharge_kw
  let generator_kw := if 0 < remaining2 then min cfg.max_generator_kw remaining2 else 0
  let remaining3 := remaining2 - generator_kw
  { hydro_kw := hydro_kw
    battery_kw := charge_kw + discharge_kw
    charge_kw := charge_kw
    discharge_kw := discharge_kw
    generator_kw := generator_kw
    spilled_kw := spilled_kw
    unserved_kw := max 0 remaining3 }

/-! ## Resort demand model (simulation.py lines 128-253) -/

/-- The dict returned by `_resort_step` (lines 240-253). -/
structure ResortOut where
  total_demand_kw : ℚ
  room_kw : ℚ
  restaurant_kw : ℚ
  spa_kw : ℚ
  lobby_kw : ℚ
  standard_rooms_occupied : ℤ
  suite_rooms_occupied : ℤ
  restaurant_customers : ℤ
  spa_customers : ℤ
  lobby_customers : ℤ
  total_guests : ℤ
  hour : ℚ
deriving DecidableEq

/-- Hour-of-day at step counter `k` (simulation.py lines 142-144):
`((step * time_step_minutes) % 1440) / 60.0`. -/
def resortHour (cfg : SimulationConfig) (k : ℕ) : ℚ :=
  ((((k : ℤ) * cfg.time_step_minutes) % (24 * 60) : ℤ) : ℚ) / 60

/-- Target occupancy ratio by time band (simulation.py lines 150-159). -/
def targetOccOfHour (hour : ℚ) : ℚ :=
  if 0 ≤ hour ∧ hour < 6 then 0.8
  else if 6 ≤ hour ∧ hour < 12 then 0.7
  else if 12 ≤ hour ∧ hour < 18 then 0.6
  else if 18 ≤ hour ∧ hour < 22 then 0.9
  else 0.85

/-- Target occupied-room count at step `k`
(simulation.py line 164: `int(total_rooms * target_occ)`). -/
def resortTarget (cfg : SimulationConfig) (k : ℕ) : ℤ :=
  pyInt (((cfg.num_standard_rooms + cfg.num_suite_rooms : ℤ) : ℚ)
    * targetOccOfHour (resortHour cfg k))

/-- The per-step occupancy change cap
(simulation.py line 167: `max(1, total_rooms // 20)`). -/
def occMaxChange (cfg : SimulationConfig) : ℤ :=
  max 1 (Int.fdiv (cfg.num_standard_rooms + cfg.num_suite_rooms) 20)

/-- Shared-area attendance fractions of `_resort_step`
(simulation.py lines 196-216): per-area base fractions by time of day,
scaled down proportionally when their sum exceeds 0.8. -/
def resortFracs (hour : ℚ) : ℚ × ℚ × ℚ :=
  let restaurant_frac : ℚ :=
    if 7 ≤ hour ∧ hour ≤ 10 then 0.4
    else if 18 ≤ hour ∧ hour ≤ 22 then 0.5
    else 0
  let spa_frac : ℚ := if 14 ≤ hour ∧ hour ≤ 18 then 0.25 else 0
  let lobby_frac : ℚ := 0.1
  let total_frac := restaurant_frac + spa_frac + lobby_frac
  if 0.8 < total_frac then
    let scale := 0.8 / total_frac
    (restaurant_frac * scale, spa_frac * scale, lobby_frac * scale)
  else (restaurant_frac, spa_frac, lobby_frac)

/-- `_resort_step` (simulation.py lines 128-253): updates the occupancy
fields of the state and returns the demand breakdown. -/
def resortStep (cfg : SimulationConfig) (st : SimState) : SimState × ResortOut :=
  let hour : ℚ := resortHour cfg st.step
  let target_occ : ℚ := targetOccOfHour hour
  let total_rooms := cfg.num_standard_rooms + cfg.num_suite_rooms
  let current_rooms_occupied := st.standard_rooms_occupied + st.suite_rooms_occupied
  let target_rooms_occupied := pyInt ((total_rooms : ℚ) * target_occ)
  let max_change_per_step := max 1 (Int.fdiv total_rooms 20)
  let delta0 := target_rooms_occupied - current_rooms_occupied
  let delta :=
    if max_change_per_step < |delta0| then
      (if 0 < delta0 then max_change_per_step else -max_change_per_step)
    else delta0
  let new_total_rooms_occupied := max 0 (min total_rooms (current_rooms_occupied + delta))
  let split : ℤ × ℤ :=
    if 0 < new_total_rooms_occupied then
      let suite_target0 := pyInt ((new_total_rooms_occupied : ℚ) * 0.2)
      let suite_target := min suite_target0 cfg.num_suite_rooms
      let standard_target := min (new_total_rooms_occupied - suite_target) cfg.num_standard_rooms
      (standard_target, suite_target)
    else (0, 0)
  let standard_target := split.1
  let suite_target := split.2
  let total_guests := standard_target * 2 + suite_target * 3
  let fracs : ℚ × ℚ × ℚ := resortFracs hour
  let restaurant_customers := pyInt ((total_guests : ℚ) * fracs.1)
  let spa_customers := pyInt ((total_guests : ℚ) * fracs.2.1)
  let lobby_customers := pyInt ((total_guests : ℚ) * fracs.2.2)
  let room_kw := (standard_target : ℚ) * cfg.standard_room_kw_per_room
    + (suite_target : ℚ) * cfg.suite_room_kw_per_room
  let restaurant_kw :=
    cfg.restaurant_base_kw + (restaurant_customers : ℚ) * cfg.restaurant_kw_per_customer
  let spa_kw := cfg.spa_base_kw + (spa_customers : ℚ) * cfg.spa_kw_per_customer
  let lobby_kw := cfg.lobby_base_kw + (lobby_customers : ℚ) * cfg.lobby_kw_per_customer
  let total_demand_kw := room_kw + restaurant_kw + spa_kw + lobby_kw
  ({ st with
      standard_rooms_occupied := standard_target
      suite_rooms_occupied := suite_target
      restaurant_customers := restaurant_customers
      spa_customers := spa_customers
      lobby_customers := lobby_customers },
   { total_demand_kw := total_demand_kw
     room_kw := room_kw
     restaurant_kw := restaurant_kw
     spa_kw := spa_kw
     lobby_kw := lobby_kw
     standard_rooms_occupied := standard_target
     suite_rooms_occupied := suite_target
     restaurant_customers := restaurant_customers
     spa_customers := spa_customers
     lobby_customers := lobby_customers
     total_guests := total_guests
     hour := hour })

/-! ## Hydro, reservoir and battery state updates (simulation.py lines 270-350) -/

/-- The minutes-in-day wrap used by `_inflow_m3_per_step` (line 282):
`(self.step * self.config.time_step_minutes) & minutes_per_day` —
a bitwise AND with 1440, not a modulo. -/
def inflowWrappedMinutes (cfg : SimulationConfig) (step : ℕ) : ℤ :=
  pyBitAnd ((step : ℤ) * cfg.time_step_minutes) (24 * 60)

/-- `_inflow_m3_per_step` (lines 270-288). `sinFn q` stands for
`math.sin(2 * math.pi * q)`. -/
def inflowM3PerStep (cfg : SimulationConfig) (sinFn : ℚ → ℚ) (step : ℕ) : ℚ :=
  let base := cfg.base_inflow_m3_per_hour
  let minutes := inflowWrappedMinutes cfg step
  let hour := (minutes : ℚ) / 60
  let daily_factor := 1 + 0.2 * sinFn (hour / 24)
  let inflow_per_hour := base * daily_factor
  inflow_per_hour * timeStepHours cfg

/-- `_hydro_power_kw` (lines 290-308). -/
def hydroPowerKw (cfg : SimulationConfig) (level : ℚ) : ℚ :=
  if level ≤ cfg.min_reservoir_m3 then 0
  else
    let fullness0 :=
      (level - cfg.min_reservoir_m3) / (cfg.max_reservoir_m3 - cfg.min_reservoir_m3)
    let fullness := max 0 (min fullness0 1)
    fullness * cfg.max_turbine_kw

/-- `_update_reservoir` (lines 310-320). -/
def updateReservoir (cfg : SimulationConfig) (level hydro_kw : ℚ) : ℚ :=
  let water_per_kwh_m3 : ℚ := 0.1
  let energy_kwh := hydro_kw * timeStepHours cfg
  let water_used_m3 := energy_kwh * water_per_kwh_m3
  max 0 (level - water_used_m3)

/-- `_update_battery_soc` (lines 325-350). -/
def updateBatterySoc (cfg : SimulationConfig) (soc battery_kw : ℚ) : ℚ :=
  let current_kwh := soc * cfg.battery_capacity_kwh
  let delta_kwh := battery_kw * timeStepHours cfg
  let current_kwh2 :=
    if 0 < delta_kwh then max 0 (current_kwh - delta_kwh / cfg.round_trip_efficiency)
    else if delta_kwh < 0 then
      min cfg.battery_capacity_kwh (current_kwh - delta_kwh * cfg.round_trip_efficiency)
    else current_kwh
  max 0 (min 1 (current_kwh2 / cfg.battery_capacity_kwh))

/-! ## Orchestrator (simulation.py lines 79-123) -/

/-- The record dict built by `step_once` (lines 105-118). -/
structure StepRecord where
  step : ℕ
  timeMin : ℤ
  demand_kw : ℚ
  hydro_kw : ℚ
  battery_kw : ℚ
  generator_kw : ℚ
  spilled_kw : ℚ
  unserved_kw : ℚ
  battery_soc : ℚ
  reservoir_level_m3 : ℚ
  resort : ResortOut
deriving DecidableEq

/-- `step_once` (simulation.py lines 79-123). -/
def stepOnce (cfg : SimulationConfig) (sinFn : ℚ → ℚ) (st : SimState) :
    SimState × StepRecord :=
  let rs := resortStep cfg st
  let st1 := rs.1
  let resort_state := rs.2
  let demand_kw := resort_state.total_demand_kw
  let inflow_m3 := inflowM3PerStep cfg sinFn st.step
  let res1 := min cfg.max_reservoir_m3 (st1.reservoir_level_m3 + inflow_m3)
  let max_hydro_kw := hydroPowerKw cfg res1
  let d := dispatch cfg st1.battery_soc demand_kw max_hydro_kw
  let soc2 := updateBatterySoc cfg st1.battery_soc d.battery_kw
  let res2 := updateReservoir cfg res1 d.hydro_kw
  let record : StepRecord :=
    { step := st.step
      timeMin := st.timeMin
      demand_kw := demand_kw
      hydro_kw := d.hydro_kw
      battery_kw := d.battery_kw
      generator_kw := d.generator_kw
      spilled_kw := d.spilled_kw
      unserved_kw := d.unserved_kw
      battery_soc := soc2
      reservoir_level_m3 := res2
      resort := resort_state }
  ({ st1 with
      reservoir_level_m3 := res2
      battery_soc := soc2
      step := st.step + 1
      timeMin := st.timeMin + cfg.time_step_minutes },
   record)

/-- State after `n` calls of `step_once` following `reset` at wall-clock
minute `now`. -/
def stateAfter (cfg : SimulationConfig) (sinFn : ℚ → ℚ) (now : ℤ) : ℕ → SimState
  | 0 => resetState cfg now
  | n + 1 => (stepOnce cfg sinFn (stateAfter cfg sinFn now n)).1

/-- The record returned by the `(n+1)`-th `step_once` call after `reset`. -/
def recordAt (cfg : SimulationConfig) (sinFn : ℚ → ℚ) (now : ℤ) (n : ℕ) : StepRecord :=
  (stepOnce cfg sinFn (stateAfter cfg sinFn now n)).2

/-- The sequence of records produced by `reset` followed by `n` steps. -/
def runRecords (cfg : SimulationConfig) (sinFn : ℚ → ℚ) (now : ℤ) : ℕ → List StepRecord
  | 0 => []
  | n + 1 => runRecords cfg sinFn now n ++ [recordAt cfg sinFn now n]

/-- Erase the wall-clock-dependent field of a record. -/
def stripTime (r : StepRecord) : StepRecord := { r with timeMin := 0 }


/-- A configuration violating the spec's validity invariant:
`min_reservoir_m3 = max_reservoir_m3`, non-positive `time_step_minutes` and
`round_trip_efficiency` outside `(0,1]`. -/
def invalidConfig : SimulationConfig :=
  { defaultConfig with
      min_reservoir_m3 := 100000
      time_step_minutes := 0
      round_trip_efficiency := 2 }


/-! ## Division-by-zero hazards of `step_once` (for claim C4)

`step_once` can raise only through a float division whose divisor is zero.
The division sites in its call tree are:
line 305 (`_hydro_power_kw`, divisor `max_reservoir_m3 - min_reservoir_m3`,
reached when `level > min_reservoir_m3`), line 434/435/439
(`_charge_battery_with_surplus`, divisors `round_trip_efficiency` and
`time_step_hours`, reached when `charge_kwh_stored > 0`), line 471
(`_discharge_battery_to_meet_load`, divisor `time_step_hours`, reached when
`discharge_kwh > 0`), and lines 342/350 (`_update_battery_soc`, divisor
`round_trip_efficiency` when `delta_kwh > 0`, and unconditionally
`battery_capacity_kwh`). The only other non-constant divisor in the call
tree, `total_frac` at line 213 of `_resort_step`, is guarded by
`total_frac > 0.8`. The division by the constant 60 at line 60 and the
constants 60.0/24.0 in `_resort_step`/`_inflow_m3_per_step` cannot be
zero. -/

/-- Divisor-zero condition at lines 434/435/439 of
`_charge_battery_with_surplus`, in execution order. -/
def chargeDividesByZero (cfg : SimulationConfig) (soc surplus_hydro_kw : ℚ) : Prop :=
  let h := timeStepHours cfg
  let current_kwh := soc * cfg.battery_capacity_kwh
  let free_space_kwh := cfg.battery_capacity_kwh - current_kwh
  ¬ free_space_kwh ≤ 0 ∧
    (let charge_kwh_stored :=
      min free_space_kwh
        (min (cfg.max_charge_kw * h) (surplus_hydro_kw * h * cfg.round_trip_efficiency))
     ¬ charge_kwh_stored ≤ 0 ∧ (cfg.round_trip_efficiency = 0 ∨ h = 0))

/-- Divisor-zero condition at line 471 of `_discharge_battery_to_meet_load`. -/
def dischargeDividesByZero (cfg : SimulationConfig) (soc remaining_kw : ℚ) : Prop :=
  let h := timeStepHours cfg
  let current_kwh := soc * cfg.battery_capacity_kwh
  ¬ current_kwh ≤ 0 ∧
    (let discharge_kwh :=
      min (remaining_kw * h) (min current_kwh (cfg.max_discharge_kw * h))
     ¬ discharge_kwh ≤ 0 ∧ timeStepHours cfg = 0)

/-- Divisor-zero condition at lines 342 and 350 of `_update_battery_soc`. -/
def updateSocDividesByZero (cfg : SimulationConfig) (battery_kw : ℚ) : Prop :=
  (0 < battery_kw * timeStepHours cfg ∧ cfg.round_trip_efficiency = 0)
  ∨ cfg.battery_capacity_kwh = 0

/-- Divisor-zero condition at line 305 of `_hydro_power_kw`. -/
def hydroDividesByZero (cfg : SimulationConfig) (level : ℚ) : Prop :=
  ¬ level ≤ cfg.min_reservoir_m3
  ∧ cfg.max_reservoir_m3 - cfg.min_reservoir_m3 = 0

/-- A call of `step_once` from state `st` evaluates a division with a zero
divisor (and hence raises `ZeroDivisionError`) if and only if one of the
listed site conditions holds along its execution path. -/
def stepRaisesDivZero (cfg : SimulationConfig) (sinFn : ℚ → ℚ) (st : SimState) : Prop :=
  let st1 := (resortStep cfg st).1
  let demand_kw := (resortStep cfg st).2.total_demand_kw
  let res1 :=
    min cfg.max_reservoir_m3 (st1.reservoir_level_m3 + inflowM3PerStep cfg sinFn st.step)
  let max_hydro_kw := hydroPowerKw cfg res1
  let hydro_kw := min max_hydro_kw demand_kw
  let remaining := demand_kw - hydro_kw
  let surplus := max 0 (max_hydro_kw - hydro_kw)
  hydroDividesByZero cfg res1
  ∨ (0 < surplus ∧ chargeDividesByZero cfg st1.battery_soc surplus)
  ∨ (0 < remaining ∧ dischargeDividesByZero cfg st1.battery_soc remaining)
  ∨ updateSocDividesByZero cfg
      (dispatch cfg st1.battery_soc demand_kw max_hydro_kw).battery_kw

/-- A configuration that satisfies every hypothesis of claim C4
(valid reservoir bounds, positive step length, efficiency in `(0,1]`, all
other numeric parameters non-negative) but has a zero-capacity battery. -/
def zeroCapacityConfig : SimulationConfig :=
  { defaultConfig with battery_capacity_kwh := 0 }


/-- A concrete stand-in for `sinFn` used in closed witness statements. -/
def zeroSin : ℚ → ℚ := fun _ => 0

/-- Integer form of the occupancy update of `_resort_step`
(simulation.py lines 162-185), abstracted over the target room count `t`.
Returns the new `(standard_rooms_occupied, suite_rooms_occupied)`. The suite
split `int(new_total * 0.2)` is written `Int.fdiv new_total 5`, which agrees
with the source because `new_total ≥ 0` (`resortStep_occ_eq` proves the two
forms equal). -/
def occPair (N S t std suite : ℤ) : ℤ × ℤ :=
  let total := N + S
  let cur := std + suite
  let mc := max 1 (Int.fdiv total 20)
  let delta0 := t - cur
  let delta := if mc < |delta0| then (if 0 < delta0 then mc else -mc) else delta0
  let alpha := max 0 (min total (cur + delta))
  if 0 < alpha then
    let su := min (Int.fdiv alpha 5) S
    (min (alpha - su) N, su)
  else (0, 0)

/-- Inductive invariant of the occupancy pair maintained by `_resort_step`
from the reset state: occupancy within capacity, plus the two bounds that
rate-limit how far the suite count can run ahead of the standard count. -/
def OccInv (cfg : SimulationConfig) (std suite : ℤ) : Prop :=
  0 ≤ std ∧ std ≤ cfg.num_standard_rooms
  ∧ 0 ≤ suite ∧ suite ≤ cfg.num_suite_rooms
  ∧ 4 * suite ≤ cfg.num_standard_rooms + occMaxChange cfg
  ∧ min (4 * suite) cfg.num_standard_rooms ≤ std

/-- A resort layout (189 standard rooms, 215 suites) for which the occupancy
update moves away from the band target once the per-type capacity caps
bind. -/
def overshootConfig : SimulationConfig :=
  { defaultConfig with num_standard_rooms := 189, num_suite_rooms := 215 }

/-- Total occupied rooms after `n` steps of the overshoot run. -/
def overshootOcc (n : ℕ) : ℤ :=
  (stateAfter overshootConfig zeroSin 0 n).standard_rooms_occupied
    + (stateAfter overshootConfig zeroSin 0 n).suite_rooms_occupied

/-- Occupancy pair after `n` steps of the overshoot run. -/
def overshootPair (n : ℕ) : ℤ × ℤ :=
  ((stateAfter overshootConfig zeroSin 0 n).standard_rooms_occupied,
    (stateAfter overshootConfig zeroSin 0 n).suite_rooms_occupied)

/-! ## Helper lemmas about the battery branch functions -/

theorem charge_fst_nonpos (cfg : SimulationConfig) (soc s : ℚ)
    (hh : 0 < timeStepHours cfg) (he : 0 < cfg.round_trip_efficiency) :
    (chargeBatteryWithSurplus cfg soc s).1 ≤ 0 := by
  simp only [chargeBatteryWithSurplus]
  split_ifs with h1 h2
  · simp
  · simp
  · push_neg at h2
    have hg : 0 < (min (cfg.battery_capacity_kwh - soc * cfg.battery_capacity_kwh)
        (min (cfg.max_charge_kw * timeStepHours cfg)
          (s * timeStepHours cfg * cfg.round_trip_efficiency))) / cfg.round_trip_efficiency :=
      div_pos h2 he
    simp only
    have := div_nonneg hg.le hh.le
    linarith [neg_div (timeStepHours cfg)
      ((min (cfg.battery_capacity_kwh - soc * cfg.battery_capacity_kwh)
        (min (cfg.max_charge_kw * timeStepHours cfg)
          (s * timeStepHours cfg * cfg.round_trip_efficiency))) / cfg.round_trip_efficiency)]

theorem charge_snd_nonneg (cfg : SimulationConfig) (soc s : ℚ) (hs : 0 ≤ s) :
    0 ≤ (chargeBatteryWithSurplus cfg soc s).2 := by
  simp only [chargeBatteryWithSurplus]
  split_ifs <;> simp [hs, le_max_left]

theorem charge_balance (cfg : SimulationConfig) (soc s : ℚ)
    (hh : 0 < timeStepHours cfg) (he : 0 < cfg.round_trip_efficiency) :
    -(chargeBatteryWithSurplus cfg soc s).1 + (chargeBatteryWithSurplus cfg soc s).2 = s := by
  simp only [chargeBatteryWithSurplus]
  split_ifs with h1 h2
  · simp
  · simp
  · push_neg at h2
    set stored := min (cfg.battery_capacity_kwh - soc * cfg.battery_capacity_kwh)
        (min (cfg.max_charge_kw * timeStepHours cfg)
          (s * timeStepHours cfg * cfg.round_trip_efficiency)) with hstored
    have hle : stored ≤ s * timeStepHours cfg * cfg.round_trip_efficiency :=
      le_trans (min_le_right _ _) (min_le_right _ _)
    have hgrid : stored / cfg.round_trip_efficiency ≤ s * timeStepHours cfg := by
      rw [div_le_iff₀ he]; linarith
    have hused : stored / cfg.round_trip_efficiency / timeStepHours cfg ≤ s := by
      rw [div_le_iff₀ hh]; linarith
    have hmax : max 0 (s - stored / cfg.round_trip_efficiency / timeStepHours cfg)
        = s - stored / cfg.round_trip_efficiency / timeStepHours cfg :=
      max_eq_right (by linarith)
    simp only [hmax]
    have : -(stored / cfg.round_trip_efficiency) / timeStepHours cfg
        = -(stored / cfg.round_trip_efficiency / timeStepHours cfg) := by
      rw [neg_div]
    rw [this]
    ring

theorem discharge_nonneg (cfg : SimulationConfig) (soc r : ℚ)
    (hh : 0 < timeStepHours cfg) :
    0 ≤ dischargeBatteryToMeetLoad cfg soc r := by
  simp only [dischargeBatteryToMeetLoad]
  split_ifs with h1 h2
  · exact le_rfl
  · exact le_rfl
  · push_neg at h2
    exact le_of_lt (div_pos h2 hh)

theorem discharge_le (cfg : SimulationConfig) (soc r : ℚ)
    (hh : 0 < timeStepHours cfg) (hr : 0 ≤ r) :
    dischargeBatteryToMeetLoad cfg soc r ≤ r := by
  simp only [dischargeBatteryToMeetLoad]
  split_ifs with h1 h2
  · exact hr
  · exact hr
  · push_neg at h2
    have hle : min (r * timeStepHours cfg)
        (min (soc * cfg.battery_capacity_kwh) (cfg.max_discharge_kw * timeStepHours cfg))
        ≤ r * timeStepHours cfg := min_le_left _ _
    rw [div_le_iff₀ hh]
    linarith

theorem dispatch_discharge_zero_of_le (cfg : SimulationConfig) (soc demand_kw max_hydro_kw : ℚ)
    (hle : demand_kw ≤ max_hydro_kw) :
    (dispatch cfg soc demand_kw max_hydro_kw).discharge_kw = 0 := by
  simp [dispatch, min_eq_right hle]

theorem dispatch_charge_zero_of_ge (cfg : SimulationConfig) (soc demand_kw max_hydro_kw : ℚ)
    (hge : max_hydro_kw ≤ demand_kw) :
    (dispatch cfg soc demand_kw max_hydro_kw).charge_kw = 0 := by
  simp [dispatch, min_eq_left hge]

/-- Claim C1: for every dispatch step with `demand_kw ≥ 0`, available hydro
`≥ 0` and battery SoC in `[0,1]` (under the spec's standing configuration
invariant `time_step_minutes > 0` and `round_trip_efficiency > 0`), both
energy balances close exactly: hydro plus the positive (discharge) part of
`battery_kw` plus generator plus unserved equals demand, and available hydro
minus dispatched hydro equals the magnitude of the negative (charging) part
of `battery_kw` plus spillage. -/
theorem C1_dispatch_energy_balances (cfg : SimulationConfig)
    (soc demand_kw max_hydro_kw : ℚ)
    (hh : 0 < timeStepHours cfg) (he : 0 < cfg.round_trip_efficiency)
    (hd : 0 ≤ demand_kw) (hm : 0 ≤ max_hydro_kw)
    (hsoc0 : 0 ≤ soc) (hsoc1 : soc ≤ 1) :
    (dispatch cfg soc demand_kw max_hydro_kw).hydro_kw
        + max (dispatch cfg soc demand_kw max_hydro_kw).battery_kw 0
        + (dispatch cfg soc demand_kw max_hydro_kw).generator_kw
        + (dispatch cfg soc demand_kw max_hydro_kw).unserved_kw = demand_kw
    ∧ max_hydro_kw - (dispatch cfg soc demand_kw max_hydro_kw).hydro_kw
        = -(min (dispatch cfg soc demand_kw max_hydro_kw).battery_kw 0)
          + (dispatch cfg soc demand_kw max_hydro_kw).spilled_kw := by
  rcases le_total demand_kw max_hydro_kw with hdm | hmd
  · simp only [dispatch, min_eq_right hdm, sub_self, lt_irrefl, if_false]
    by_cases hs : 0 < max 0 (max_hydro_kw - demand_kw)
    · have hsurp : max 0 (max_hydro_kw - demand_kw) = max_hydro_kw - demand_kw :=
        max_eq_right (by linarith)
      rw [hsurp] at hs ⊢
      simp only [if_pos hs]
      have hc0 := charge_fst_nonpos cfg soc (max_hydro_kw - demand_kw) hh he
      have hbal := charge_balance cfg soc (max_hydro_kw - demand_kw) hh he
      constructor
      · rw [max_eq_right (by linarith [hc0] : (chargeBatteryWithSurplus cfg soc
          (max_hydro_kw - demand_kw)).1 + 0 ≤ 0)]
        simp
      · rw [min_eq_left (by linarith [hc0] : (chargeBatteryWithSurplus cfg soc
          (max_hydro_kw - demand_kw)).1 + 0 ≤ 0)]
        linarith [hbal]
    · have hz : max_hydro_kw - demand_kw ≤ 0 := by
        by_contra hcon
        push_neg at hcon
        exact hs (lt_max_of_lt_right hcon)
      simp only [if_neg hs]
      constructor
      · simp
      · have hmd2 : max_hydro_kw = demand_kw := le_antisymm (by linarith) hdm
        simp [hmd2]
  · simp only [dispatch, min_eq_left hmd, sub_self, max_self, lt_irrefl, if_false]
    by_cases hr : 0 < demand_kw - max_hydro_kw
    · simp only [if_pos hr]
      have hd0 := discharge_nonneg cfg soc (demand_kw - max_hydro_kw) hh
      have hdle := discharge_le cfg soc (demand_kw - max_hydro_kw) hh (le_of_lt hr)
      set dB := dischargeBatteryToMeetLoad cfg soc (demand_kw - max_hydro_kw) with hdB
      by_cases hr2 : 0 < demand_kw - max_hydro_kw - dB
      · simp only [if_pos hr2]
        have hgle : min cfg.max_generator_kw (demand_kw - max_hydro_kw - dB)
            ≤ demand_kw - max_hydro_kw - dB := min_le_right _ _
        constructor
        · rw [max_eq_left (by linarith : (0:ℚ) ≤ 0 + dB),
            max_eq_right (by linarith : demand_kw - max_hydro_kw - dB
              - min cfg.max_generator_kw (demand_kw - max_hydro_kw - dB) ≥ 0)]
          ring
        · rw [min_eq_right (by linarith : (0:ℚ) ≤ 0 + dB)]
          ring
      · simp only [if_neg hr2]
        constructor
        · rw [max_eq_left (by linarith : (0:ℚ) ≤ 0 + dB),
            max_eq_left (by linarith : demand_kw - max_hydro_kw - dB - 0 ≤ 0)]
          linarith
        · rw [min_eq_right (by linarith : (0:ℚ) ≤ 0 + dB)]
          ring
    · simp only [if_neg hr]
      have : demand_kw = max_hydro_kw := by
        push_neg at hr
        linarith
      simp [this]

/-- Concrete instance of the C1 balances: default configuration, SoC `1/2`,
demand `100`, available hydro `250`. -/
theorem C1_dispatch_energy_balances_witness :
    (dispatch defaultConfig (1/2) 100 250).hydro_kw
        + max (dispatch defaultConfig (1/2) 100 250).battery_kw 0
        + (dispatch defaultConfig (1/2) 100 250).generator_kw
        + (dispatch defaultConfig (1/2) 100 250).unserved_kw = 100
    ∧ 250 - (dispatch defaultConfig (1/2) 100 250).hydro_kw
        = -(min (dispatch defaultConfig (1/2) 100 250).battery_kw 0)
          + (dispatch defaultConfig (1/2) 100 250).spilled_kw :=
  C1_dispatch_energy_balances defaultConfig (1/2) 100 250
    (by norm_num [timeStepHours, defaultConfig])
    (by norm_num [defaultConfig]) (by norm_num) (by norm_num)
    (by norm_num) (by norm_num)

/-- Claim C7: within a single dispatch step (`demand_kw ≥ 0`, available hydro
`≥ 0`), the battery either only charges or only discharges: a negative
surplus-charging contribution forces a zero discharge contribution, and a
positive discharge contribution forces a zero charging contribution. -/
theorem C7_battery_charge_xor_discharge (cfg : SimulationConfig)
    (soc demand_kw max_hydro_kw : ℚ) (hd : 0 ≤ demand_kw) (hm : 0 ≤ max_hydro_kw) :
    ((dispatch cfg soc demand_kw max_hydro_kw).charge_kw < 0 →
      (dispatch cfg soc demand_kw max_hydro_kw).discharge_kw = 0)
    ∧ (0 < (dispatch cfg soc demand_kw max_hydro_kw).discharge_kw →
      (dispatch cfg soc demand_kw max_hydro_kw).charge_kw = 0) := by
  rcases le_total demand_kw max_hydro_kw with hdm | hmd
  · constructor
    · intro _
      exact dispatch_discharge_zero_of_le cfg soc demand_kw max_hydro_kw hdm
    · intro hpos
      rw [dispatch_discharge_zero_of_le cfg soc demand_kw max_hydro_kw hdm] at hpos
      exact absurd hpos (lt_irrefl 0)
  · constructor
    · intro hneg
      rw [dispatch_charge_zero_of_ge cfg soc demand_kw max_hydro_kw hmd] at hneg
      exact absurd hneg (lt_irrefl 0)
    · intro _
      exact dispatch_charge_zero_of_ge cfg soc demand_kw max_hydro_kw hmd

/-- Concrete instance of C7 at default configuration, SoC `1/2`,
demand `100`, available hydro `40`. -/
theorem C7_battery_charge_xor_discharge_witness :
    ((dispatch defaultConfig (1/2) 100 40).charge_kw < 0 →
      (dispatch defaultConfig (1/2) 100 40).discharge_kw = 0)
    ∧ (0 < (dispatch defaultConfig (1/2) 100 40).discharge_kw →
      (dispatch defaultConfig (1/2) 100 40).charge_kw = 0) :=
  C7_battery_charge_xor_discharge defaultConfig (1/2) 100 40
    (by norm_num) (by norm_num)

/-- Claim C8 as stated is false: with demand `0`, surplus hydro `100` and a
half-charged default battery, the dispatcher charges the battery from the
surplus (`battery_kw = -100 ≠ 0`) and spills nothing (`spilled_kw = 0`, not
the full available hydro). -/
theorem C8_counterexample :
    ¬ ((dispatch defaultConfig (1/2) 0 100).battery_kw = 0
      ∧ (dispatch defaultConfig (1/2) 0 100).spilled_kw = 100) := by
  intro h
  have hb : (dispatch defaultConfig (1/2) 0 100).battery_kw = -100 := by
    norm_num [dispatch, chargeBatteryWithSurplus, defaultConfig, timeStepHours,
      min_def, max_def]
  rw [hb] at h
  exact absurd h.1 (by norm_num)

/-- Claim C8, amended: dispatching with `demand_kw = 0` (available hydro
`≥ 0`, positive step length and efficiency) yields `hydro_kw = 0`,
`generator_kw = 0`, `unserved_kw = 0` and a charge-only battery command
(`battery_kw ≤ 0`); the full available hydro power is split between
grid-side battery charging and spillage
(`-battery_kw + spilled_kw = max_hydro_kw`), so `spilled_kw` equals the full
available hydro only when the battery accepts no charge. -/
theorem C8_zero_demand_dispatch (cfg : SimulationConfig) (soc max_hydro_kw : ℚ)
    (hh : 0 < timeStepHours cfg) (he : 0 < cfg.round_trip_efficiency)
    (hm : 0 ≤ max_hydro_kw) :
    (dispatch cfg soc 0 max_hydro_kw).hydro_kw = 0
    ∧ (dispatch cfg soc 0 max_hydro_kw).generator_kw = 0
    ∧ (dispatch cfg soc 0 max_hydro_kw).unserved_kw = 0
    ∧ (dispatch cfg soc 0 max_hydro_kw).battery_kw ≤ 0
    ∧ -(dispatch cfg soc 0 max_hydro_kw).battery_kw
        + (dispatch cfg soc 0 max_hydro_kw).spilled_kw = max_hydro_kw := by
  have heq : dispatch cfg soc 0 max_hydro_kw =
      { hydro_kw := 0
        battery_kw :=
          (if 0 < max_hydro_kw then chargeBatteryWithSurplus cfg soc max_hydro_kw
            else (0, 0)).1
        charge_kw :=
          (if 0 < max_hydro_kw then chargeBatteryWithSurplus cfg soc max_hydro_kw
            else (0, 0)).1
        discharge_kw := 0
        generator_kw := 0
        spilled_kw :=
          (if 0 < max_hydro_kw then chargeBatteryWithSurplus cfg soc max_hydro_kw
            else (0, 0)).2
        unserved_kw := 0 } := by
    simp [dispatch, min_eq_right hm, max_eq_right hm]
  rw [heq]
  by_cases hs : 0 < max_hydro_kw
  · simp only [if_pos hs]
    exact ⟨trivial, trivial, trivial, charge_fst_nonpos cfg soc max_hydro_kw hh he,
      charge_balance cfg soc max_hydro_kw hh he⟩
  · have hz : max_hydro_kw = 0 := le_antisymm (not_lt.mp hs) hm
    simp [if_neg hs, hz]

/-- Shifting the wall-clock offset of the state shifts only the
timestamp of the resulting state and record. -/
theorem stepOnce_timeShift (cfg : SimulationConfig) (sinFn : ℚ → ℚ) (st : SimState)
    (t : ℤ) :
    stepOnce cfg sinFn { st with timeMin := t }
      = ({ (stepOnce cfg sinFn st).1 with timeMin := t + cfg.time_step_minutes },
         { (stepOnce cfg sinFn st).2 with timeMin := t }) := rfl

/-- The state after `n` steps from a reset at minute `t` is the state after
`n` steps from a reset at minute `0`, with the timestamp shifted. -/
theorem stateAfter_timeShift (cfg : SimulationConfig) (sinFn : ℚ → ℚ) (t : ℤ) :
    ∀ n : ℕ, stateAfter cfg sinFn t n
      = { stateAfter cfg sinFn 0 n with
            timeMin := t + (stateAfter cfg sinFn 0 n).timeMin }
  | 0 => by
      simp only [stateAfter, resetState, add_zero]
  | n + 1 => by
      have ih := stateAfter_timeShift cfg sinFn t n
      show (stepOnce cfg sinFn (stateAfter cfg sinFn t n)).1 = _
      rw [ih, stepOnce_timeShift]
      show ({ (stepOnce cfg sinFn (stateAfter cfg sinFn 0 n)).1 with
          timeMin := t + (stateAfter cfg sinFn 0 n).timeMin + cfg.time_step_minutes }
          : SimState) = _
      have htm : (stateAfter cfg sinFn 0 (n + 1)).timeMin
          = (stateAfter cfg sinFn 0 n).timeMin + cfg.time_step_minutes := rfl
      rw [htm]
      have : t + (stateAfter cfg sinFn 0 n).timeMin + cfg.time_step_minutes
          = t + ((stateAfter cfg sinFn 0 n).timeMin + cfg.time_step_minutes) := by ring
      rw [this]
      rfl

/-- Records from reset at minute `t` differ from records from reset at
minute `0` only in the timestamp field. -/
theorem recordAt_timeShift (cfg : SimulationConfig) (sinFn : ℚ → ℚ) (t : ℤ) (n : ℕ) :
    recordAt cfg sinFn t n
      = { recordAt cfg sinFn 0 n with
            timeMin := t + (stateAfter cfg sinFn 0 n).timeMin } := by
  unfold recordAt
  rw [stateAfter_timeShift cfg sinFn t n, stepOnce_timeShift]

/-- Claim C6 as stated is false: the record sequences of two runs with the
same configuration are not identical field for field, because `reset`
timestamps the run with `datetime.now()` — two runs reset one minute apart
already differ in the `time` field of their first records. -/
theorem C6_counterexample :
    runRecords defaultConfig zeroSin 0 1 ≠ runRecords defaultConfig zeroSin 1 1 := by
  intro h
  have h2 := congrArg (fun l => List.map StepRecord.timeMin l) h
  have e0 : List.map StepRecord.timeMin (runRecords defaultConfig zeroSin 0 1)
      = [0] := rfl
  have e1 : List.map StepRecord.timeMin (runRecords defaultConfig zeroSin 1 1)
      = [1] := rfl
  simp only at h2
  rw [e0, e1] at h2
  exact absurd (List.head_eq_of_cons_eq h2) (by decide)

/-- Claim C6, amended: the stepping core is deterministic — two runs that
reset with the same configuration and step `N` times produce record
sequences that are identical field for field except for the wall-clock
timestamp (which is offset by the difference of the two `reset` times, and
identical as well whenever the two resets sample the same clock value). -/
theorem C6_runs_identical_except_timestamp (cfg : SimulationConfig) (sinFn : ℚ → ℚ)
    (t1 t2 : ℤ) : ∀ n : ℕ,
    (runRecords cfg sinFn t1 n).map stripTime = (runRecords cfg sinFn t2 n).map stripTime
  | 0 => rfl
  | n + 1 => by
      have ih := C6_runs_identical_except_timestamp cfg sinFn t1 t2 n
      simp only [runRecords, List.map_append, ih, List.map_cons, List.map_nil]
      have hr : stripTime (recordAt cfg sinFn t1 n) = stripTime (recordAt cfg sinFn t2 n) := by
        rw [recordAt_timeShift cfg sinFn t1 n, recordAt_timeShift cfg sinFn t2 n]
        rfl
      rw [hr]

/-- Claim C3 as stated is false: constructing the simulator with a
configuration where `min_reservoir_m3 ≥ max_reservoir_m3`,
`time_step_minutes ≤ 0` and `round_trip_efficiency ∉ (0,1]` does not fail:
`__init__` performs no validation and succeeds. -/
theorem C3_counterexample :
    invalidConfig.max_reservoir_m3 ≤ invalidConfig.min_reservoir_m3
    ∧ invalidConfig.time_step_minutes ≤ 0
    ∧ 1 < invalidConfig.round_trip_efficiency
    ∧ initSimulator invalidConfig 0 ≠ none := by
  refine ⟨by norm_num [invalidConfig, defaultConfig],
    by norm_num [invalidConfig, defaultConfig],
    by norm_num [invalidConfig, defaultConfig], ?_⟩
  simp [initSimulator]

/-- Claim C3, amended: construction performs no configuration validation at
all — for every configuration, including invalid ones, `__init__` succeeds
and immediately creates the full initial simulation state (half-full
reservoir, 50% SoC, zero occupancy, step 0). -/
theorem C3_init_accepts_any_config (cfg : SimulationConfig) (now : ℤ) :
    ∃ st, initSimulator cfg now = some st
      ∧ st.reservoir_level_m3 = cfg.max_reservoir_m3 * 0.5
      ∧ st.battery_soc = 0.5
      ∧ st.step = 0
      ∧ st.standard_rooms_occupied = 0
      ∧ st.suite_rooms_occupied = 0 :=
  ⟨resetState cfg now, rfl, rfl, rfl, rfl, rfl, rfl⟩

/-- Claim C5, the bug the spec flags as an open question: the inflow
time-of-day computation wraps minutes with a bitwise AND
(`(step * time_step_minutes) & 1440`) instead of a modulo. At the default
step length of 15 minutes this diverges already at step 1 (AND gives 0
minutes where modulo gives 15) and at step 100 (AND gives 1408 where modulo
gives 60), so the inflow daily factor is not the one the claim specifies. -/
theorem C5_inflow_wrap_uses_bitand_not_mod :
    inflowWrappedMinutes defaultConfig 1 = 0
    ∧ ((1 : ℤ) * defaultConfig.time_step_minutes) % 1440 = 15
    ∧ inflowWrappedMinutes defaultConfig 100 = 1408
    ∧ ((100 : ℤ) * defaultConfig.time_step_minutes) % 1440 = 60 := by
  refine ⟨?_, ?_, ?_, ?_⟩ <;> decide

/-- Claim C4 as stated is false: with `battery_capacity_kwh = 0` — allowed
by the claim, which only requires the non-reservoir parameters to be
non-negative — the unconditional division `current_kwh /
cfg.battery_capacity_kwh` at line 350 of `_update_battery_soc` divides by
zero on the very first step, so `step_once` raises `ZeroDivisionError`. -/
theorem C4_counterexample :
    zeroCapacityConfig.min_reservoir_m3 < zeroCapacityConfig.max_reservoir_m3
    ∧ 0 < zeroCapacityConfig.time_step_minutes
    ∧ 0 < zeroCapacityConfig.round_trip_efficiency
    ∧ zeroCapacityConfig.round_trip_efficiency ≤ 1
    ∧ 0 ≤ zeroCapacityConfig.battery_capacity_kwh
    ∧ 0 ≤ zeroCapacityConfig.max_turbine_kw
    ∧ 0 ≤ zeroCapacityConfig.min_reservoir_m3
    ∧ 0 ≤ zeroCapacityConfig.base_inflow_m3_per_hour
    ∧ 0 ≤ zeroCapacityConfig.max_charge_kw
    ∧ 0 ≤ zeroCapacityConfig.max_discharge_kw
    ∧ 0 ≤ zeroCapacityConfig.max_generator_kw
    ∧ 0 ≤ zeroCapacityConfig.num_standard_rooms
    ∧ 0 ≤ zeroCapacityConfig.num_suite_rooms
    ∧ stepRaisesDivZero zeroCapacityConfig zeroSin (resetState zeroCapacityConfig 0) := by
  refine ⟨?_, ?_, ?_, ?_, ?_, ?_, ?_, ?_, ?_, ?_, ?_, ?_, ?_, ?_⟩
  all_goals try norm_num [zeroCapacityConfig, defaultConfig]
  simp [stepRaisesDivZero, updateSocDividesByZero, zeroCapacityConfig]

/-- Claim C4, amended: under the spec's configuration invariant
(`min_reservoir_m3 < max_reservoir_m3`, `time_step_minutes > 0`, positive
efficiency) together with a strictly positive battery capacity, `step_once`
never divides by zero, from any state whatsoever. -/
theorem C4_step_no_div_by_zero (cfg : SimulationConfig) (sinFn : ℚ → ℚ) (st : SimState)
    (hlt : cfg.min_reservoir_m3 < cfg.max_reservoir_m3)
    (hdt : 0 < cfg.time_step_minutes)
    (he : 0 < cfg.round_trip_efficiency)
    (hcap : 0 < cfg.battery_capacity_kwh) :
    ¬ stepRaisesDivZero cfg sinFn st := by
  have hh : 0 < timeStepHours cfg := by
    have : (0:ℚ) < (cfg.time_step_minutes : ℚ) := by exact_mod_cast hdt
    unfold timeStepHours
    positivity
  intro hraise
  simp only [stepRaisesDivZero, hydroDividesByZero, chargeDividesByZero,
    dischargeDividesByZero, updateSocDividesByZero] at hraise
  rcases hraise with ⟨_, hzero⟩ | ⟨_, _, _, heff | hstep⟩ | ⟨_, _, _, hstep⟩ |
    ⟨_, heff⟩ | hczero
  · linarith
  · linarith
  · linarith
  · linarith
  · linarith
  · linarith

/-- Concrete instance of the amended C4 at the default configuration and the
freshly reset state. -/
theorem C4_step_no_div_by_zero_witness :
    ¬ stepRaisesDivZero defaultConfig zeroSin (resetState defaultConfig 0) :=
  C4_step_no_div_by_zero defaultConfig zeroSin (resetState defaultConfig 0)
    (by norm_num [defaultConfig]) (by norm_num [defaultConfig])
    (by norm_num [defaultConfig]) (by norm_num [defaultConfig])

/-- Concrete instance of the amended C8 at default configuration, SoC `1/2`,
available hydro `100`. -/
theorem C8_zero_demand_dispatch_witness :
    (dispatch defaultConfig (1/2) 0 100).hydro_kw = 0
    ∧ (dispatch defaultConfig (1/2) 0 100).generator_kw = 0
    ∧ (dispatch defaultConfig (1/2) 0 100).unserved_kw = 0
    ∧ (dispatch defaultConfig (1/2) 0 100).battery_kw ≤ 0
    ∧ -(dispatch defaultConfig (1/2) 0 100).battery_kw
        + (dispatch defaultConfig (1/2) 0 100).spilled_kw = 100 :=
  C8_zero_demand_dispatch defaultConfig (1/2) 100
    (by norm_num [timeStepHours, defaultConfig])
    (by norm_num [defaultConfig]) (by norm_num)

/-! ## Occupancy-model lemmas -/

theorem pyInt_of_nonneg (q : ℚ) (h : 0 ≤ q) : pyInt q = ⌊q⌋ := if_pos h

theorem pyInt_nonneg (q : ℚ) (h : 0 ≤ q) : 0 ≤ pyInt q := by
  rw [pyInt_of_nonneg q h]
  exact Int.floor_nonneg.mpr h

theorem pyInt_mul_fifth (a : ℤ) (ha : 0 ≤ a) :
    pyInt ((a : ℚ) * 0.2) = Int.fdiv a 5 := by
  have ha' : (0 : ℚ) ≤ (a : ℚ) := by exact_mod_cast ha
  have key := Rat.floor_intCast_div_natCast a 5
  have h2 : ((a : ℚ) * 0.2) = (a : ℚ) / ((5 : ℕ) : ℚ) := by
    rw [show (0.2 : ℚ) = 1 / 5 by norm_num, mul_one_div]
    norm_num
  rw [pyInt_of_nonneg _ (mul_nonneg ha' (by norm_num)), h2, key,
    Int.fdiv_eq_ediv _ (by norm_num)]
  norm_num

/-- The occupancy fields produced by `_resort_step` coincide with the
integer model `occPair` at the target `resortTarget`. -/
theorem resortStep_occ_eq (cfg : SimulationConfig) (st : SimState) :
    ((resortStep cfg st).1.standard_rooms_occupied,
      (resortStep cfg st).1.suite_rooms_occupied)
      = occPair cfg.num_standard_rooms cfg.num_suite_rooms (resortTarget cfg st.step)
          st.standard_rooms_occupied st.suite_rooms_occupied := by
  simp only [resortStep, occPair, resortTarget, Prod.mk.eta]
  rw [pyInt_mul_fifth _ (le_max_left _ _)]

/-- One step of the integer occupancy model preserves the invariant and
changes the occupied-room total by at most `max 1 ((N+S) // 20)`. -/
theorem occPair_invariant (N S t std suite : ℤ) (hN : 0 ≤ N) (hS : 0 ≤ S)
    (i1 : 0 ≤ std) (i2 : std ≤ N) (i3 : 0 ≤ suite) (i4 : suite ≤ S)
    (i5 : 4 * suite ≤ N + max 1 (Int.fdiv (N + S) 20))
    (i6 : min (4 * suite) N ≤ std) :
    (0 ≤ (occPair N S t std suite).1 ∧ (occPair N S t std suite).1 ≤ N
      ∧ 0 ≤ (occPair N S t std suite).2 ∧ (occPair N S t std suite).2 ≤ S
      ∧ 4 * (occPair N S t std suite).2 ≤ N + max 1 (Int.fdiv (N + S) 20)
      ∧ min (4 * (occPair N S t std suite).2) N ≤ (occPair N S t std suite).1)
    ∧ |((occPair N S t std suite).1 + (occPair N S t std suite).2) - (std + suite)|
        ≤ max 1 (Int.fdiv (N + S) 20) := by
  have hmc : 1 ≤ max 1 (Int.fdiv (N + S) 20) := le_max_left _ _
  simp only [occPair]
  set mc := max 1 (Int.fdiv (N + S) 20) with hmcdef
  set delta0 := t - (std + suite) with hd0def
  set delta := if mc < |delta0| then (if 0 < delta0 then mc else -mc) else delta0
    with hddef
  have hdelta : -mc ≤ delta ∧ delta ≤ mc := by
    rw [hddef]
    split_ifs with h1 h2
    · constructor <;> linarith
    · constructor <;> linarith
    · exact abs_le.mp (le_of_not_lt h1)
  set alpha := max 0 (min (N + S) (std + suite + delta)) with hadef
  have hA0 : 0 ≤ alpha := le_max_left _ _
  have hA1 : alpha ≤ std + suite + mc := by
    rw [hadef]
    apply max_le
    · linarith
    · exact le_trans (min_le_right _ _) (by linarith [hdelta.2])
  have hA2 : std + suite - mc ≤ alpha := by
    rw [hadef]
    refine le_trans (le_min ?_ ?_) (le_max_right _ _)
    · linarith
    · linarith [hdelta.1]
  have hfd : Int.fdiv alpha 5 = alpha / 5 := Int.fdiv_eq_ediv _ (by norm_num)
  have hdm := Int.ediv_add_emod alpha 5
  have hr0 : 0 ≤ alpha % 5 := Int.emod_nonneg alpha (by norm_num)
  have hr5 : alpha % 5 < 5 := Int.emod_lt_of_pos alpha (by norm_num)
  have hq1 : 0 ≤ Int.fdiv alpha 5 := by
    rw [hfd]
    exact Int.ediv_nonneg hA0 (by norm_num)
  have hq2 : 5 * Int.fdiv alpha 5 ≤ alpha := by
    rw [hfd]
    linarith
  have hq4 : ∀ m : ℤ, 5 * m ≤ alpha → m ≤ Int.fdiv alpha 5 := by
    intro m hm
    rw [hfd]
    rw [Int.le_ediv_iff_mul_le (by norm_num : (0:ℤ) < 5)]
    linarith
  split_ifs with hpos
  · dsimp only
    set su := min (Int.fdiv alpha 5) S with hsudef
    have hsu0 : 0 ≤ su := le_min hq1 hS
    have hsuS : su ≤ S := min_le_right _ _
    have hsuq : su ≤ Int.fdiv alpha 5 := min_le_left _ _
    have hsu4 : 4 * su ≤ alpha - su := by
      rcases min_cases (Int.fdiv alpha 5) S with ⟨heq, hle⟩ | ⟨heq, hlt⟩
      · rw [hsudef, heq]
        linarith
      · rw [hsudef, heq]
        linarith
    have hstd0 : 0 ≤ min (alpha - su) N := le_min (by linarith) hN
    have hq5 : 4 * Int.fdiv alpha 5 ≤ N + mc := by
      have h20 : 20 * Int.fdiv alpha 5 ≤ 4 * alpha := by linarith
      linarith
    refine ⟨⟨hstd0, min_le_right _ _, hsu0, hsuS, ?_, ?_⟩, ?_⟩
    · linarith [hq5, hsuq]
    · refine le_min (le_trans (min_le_left _ _) (by linarith)) (min_le_right _ _)
    · have hup : min (alpha - su) N + su - (std + suite) ≤ mc := by
        have := min_le_left (alpha - su) N
        linarith
      have hlow : -mc ≤ min (alpha - su) N + su - (std + suite) := by
        rcases min_cases (alpha - su) N with ⟨heq, hle⟩ | ⟨heq, hlt⟩
        · rw [heq]
          linarith
        · rw [heq]
          have hsu_ge : suite - mc ≤ su := by
            rcases min_cases (Int.fdiv alpha 5) S with ⟨heq2, hle2⟩ | ⟨heq2, hlt2⟩
            · rw [hsudef, heq2]
              have halpha5 : 5 * (suite - mc) ≤ alpha := by
                rcases min_cases (4 * suite) N with ⟨heq3, hle3⟩ | ⟨heq3, hlt3⟩
                · rw [heq3] at i6
                  linarith
                · rw [heq3] at i6
                  linarith
              exact hq4 _ halpha5
            · rw [hsudef, heq2]
              linarith
          linarith
      exact abs_le.mpr ⟨hlow, hup⟩
  · dsimp only
    push_neg at hpos
    have hcur : std + suite ≤ mc := by linarith
    refine ⟨⟨le_rfl, hN, le_rfl, hS, by linarith, ?_⟩, ?_⟩
    · exact le_trans (min_le_left _ _) (by norm_num)
    · rw [abs_le]
      constructor <;> [linarith; linarith]

/-- The occupancy invariant holds at every step reachable from `reset`. -/
theorem stateAfter_occInv (cfg : SimulationConfig) (sinFn : ℚ → ℚ) (now : ℤ)
    (hN : 0 ≤ cfg.num_standard_rooms) (hS : 0 ≤ cfg.num_suite_rooms) :
    ∀ n : ℕ, OccInv cfg (stateAfter cfg sinFn now n).standard_rooms_occupied
      (stateAfter cfg sinFn now n).suite_rooms_occupied
  | 0 => by
      have hmc : 1 ≤ occMaxChange cfg := le_max_left _ _
      show OccInv cfg (0 : ℤ) (0 : ℤ)
      exact ⟨le_rfl, hN, le_rfl, hS, by linarith,
        le_trans (min_le_left _ _) (by norm_num)⟩
  | n + 1 => by
      obtain ⟨j1, j2, j3, j4, j5, j6⟩ := stateAfter_occInv cfg sinFn now hN hS n
      have hpair := resortStep_occ_eq cfg (stateAfter cfg sinFn now n)
      have h1 := congrArg Prod.fst hpair
      have h2 := congrArg Prod.snd hpair
      dsimp only at h1 h2
      have hocc := (occPair_invariant cfg.num_standard_rooms cfg.num_suite_rooms
        (resortTarget cfg (stateAfter cfg sinFn now n).step)
        (stateAfter cfg sinFn now n).standard_rooms_occupied
        (stateAfter cfg sinFn now n).suite_rooms_occupied
        hN hS j1 j2 j3 j4 j5 j6).1
      show OccInv cfg
        (resortStep cfg (stateAfter cfg sinFn now n)).1.standard_rooms_occupied
        (resortStep cfg (stateAfter cfg sinFn now n)).1.suite_rooms_occupied
      rw [OccInv, h1, h2]
      exact hocc

/-- Claim C9, amended: for every configuration with non-negative room counts
and every step, the total number of occupied rooms changes by at most
`max(1, total_rooms // 20)` in absolute value. (The direction of the change
is not always toward the band target: when the per-type capacity caps bind,
the total can move away from — or past — the target; see the
counterexample.) -/
theorem C9_occupancy_change_rate_limited (cfg : SimulationConfig) (sinFn : ℚ → ℚ)
    (now : ℤ) (hN : 0 ≤ cfg.num_standard_rooms) (hS : 0 ≤ cfg.num_suite_rooms)
    (n : ℕ) :
    |((stateAfter cfg sinFn now (n + 1)).standard_rooms_occupied
        + (stateAfter cfg sinFn now (n + 1)).suite_rooms_occupied)
      - ((stateAfter cfg sinFn now n).standard_rooms_occupied
        + (stateAfter cfg sinFn now n).suite_rooms_occupied)|
      ≤ occMaxChange cfg := by
  obtain ⟨j1, j2, j3, j4, j5, j6⟩ := stateAfter_occInv cfg sinFn now hN hS n
  have hpair := resortStep_occ_eq cfg (stateAfter cfg sinFn now n)
  have h1 := congrArg Prod.fst hpair
  have h2 := congrArg Prod.snd hpair
  dsimp only at h1 h2
  have hocc := (occPair_invariant cfg.num_standard_rooms cfg.num_suite_rooms
    (resortTarget cfg (stateAfter cfg sinFn now n).step)
    (stateAfter cfg sinFn now n).standard_rooms_occupied
    (stateAfter cfg sinFn now n).suite_rooms_occupied
    hN hS j1 j2 j3 j4 j5 j6).2
  show |((resortStep cfg (stateAfter cfg sinFn now n)).1.standard_rooms_occupied
      + (resortStep cfg (stateAfter cfg sinFn now n)).1.suite_rooms_occupied)
      - ((stateAfter cfg sinFn now n).standard_rooms_occupied
      + (stateAfter cfg sinFn now n).suite_rooms_occupied)| ≤ occMaxChange cfg
  rw [h1, h2]
  exact hocc

/-- Concrete instance of the amended C9 at the default configuration,
first step. -/
theorem C9_occupancy_change_rate_limited_witness :
    |((stateAfter defaultConfig zeroSin 0 1).standard_rooms_occupied
        + (stateAfter defaultConfig zeroSin 0 1).suite_rooms_occupied)
      - ((stateAfter defaultConfig zeroSin 0 0).standard_rooms_occupied
        + (stateAfter defaultConfig zeroSin 0 0).suite_rooms_occupied)|
      ≤ occMaxChange defaultConfig :=
  C9_occupancy_change_rate_limited defaultConfig zeroSin 0
    (by norm_num [defaultConfig]) (by norm_num [defaultConfig]) 0

/-- The step counter of the simulator state equals the number of steps
taken since reset. -/
theorem stateAfter_step_eq (cfg : SimulationConfig) (sinFn : ℚ → ℚ) (now : ℤ) :
    ∀ n : ℕ, (stateAfter cfg sinFn now n).step = n
  | 0 => rfl
  | n + 1 => by
      show (stateAfter cfg sinFn now n).step + 1 = n + 1
      rw [stateAfter_step_eq cfg sinFn now n]

/-- One-step recurrence of the overshoot-run occupancy pair through the
integer model. -/
theorem overshootPair_succ (n : ℕ) :
    overshootPair (n + 1)
      = occPair 189 215 (resortTarget overshootConfig n)
          (overshootPair n).1 (overshootPair n).2 := by
  have h := resortStep_occ_eq overshootConfig (stateAfter overshootConfig zeroSin 0 n)
  rw [stateAfter_step_eq] at h
  exact h

/-- Band target of the overshoot run during the first six simulated hours. -/
theorem overshootTarget_early (k : ℕ) (hk : k < 24) :
    resortTarget overshootConfig k = 323 := by
  have hmod : (((k : ℤ) * overshootConfig.time_step_minutes) % (24 * 60) : ℤ)
      = (k : ℤ) * 15 := by
    show (((k : ℤ) * 15) % (24 * 60) : ℤ) = (k : ℤ) * 15
    apply Int.emod_eq_of_lt
    · positivity
    · omega
  have hk' : (k : ℚ) ≤ 23 := by exact_mod_cast Nat.lt_succ_iff.mp hk
  have hhour : resortHour overshootConfig k = (k : ℚ) * 15 / 60 := by
    rw [resortHour, hmod]
    push_cast
    ring
  have hocc : targetOccOfHour ((k : ℚ) * 15 / 60) = 0.8 := by
    have h6 : (k : ℚ) * 15 / 60 < 6 := by
      rw [div_lt_iff₀ (by norm_num : (0:ℚ) < 60)]
      linarith
    simp only [targetOccOfHour]
    rw [if_pos ⟨by positivity, h6⟩]
  rw [resortTarget, hhour, hocc]
  rw [show ((overshootConfig.num_standard_rooms + overshootConfig.num_suite_rooms : ℤ) : ℚ)
    = 404 by norm_num [overshootConfig, defaultConfig]]
  rw [pyInt_of_nonneg _ (by norm_num), show ((404 : ℚ) * 0.8) = 323.2 by norm_num,
    Int.floor_eq_iff]
  constructor <;> norm_num

/-- Band target of the overshoot run between hours 6 and 12. -/
theorem overshootTarget_mid (k : ℕ) (h1 : 24 ≤ k) (h2 : k < 48) :
    resortTarget overshootConfig k = 282 := by
  have hmod : (((k : ℤ) * overshootConfig.time_step_minutes) % (24 * 60) : ℤ)
      = (k : ℤ) * 15 := by
    show (((k : ℤ) * 15) % (24 * 60) : ℤ) = (k : ℤ) * 15
    apply Int.emod_eq_of_lt
    · positivity
    · omega
  have hk1 : (24 : ℚ) ≤ (k : ℚ) := by exact_mod_cast h1
  have hk2 : (k : ℚ) ≤ 47 := by exact_mod_cast Nat.lt_succ_iff.mp h2
  have hhour : resortHour overshootConfig k = (k : ℚ) * 15 / 60 := by
    rw [resortHour, hmod]
    push_cast
    ring
  have hge6 : (6 : ℚ) ≤ (k : ℚ) * 15 / 60 := by
    rw [le_div_iff₀ (by norm_num : (0:ℚ) < 60)]
    linarith
  have hlt12 : (k : ℚ) * 15 / 60 < 12 := by
    rw [div_lt_iff₀ (by norm_num : (0:ℚ) < 60)]
    linarith
  have hocc : targetOccOfHour ((k : ℚ) * 15 / 60) = 0.7 := by
    simp only [targetOccOfHour]
    rw [if_neg (fun h => absurd h.2 (not_lt.mpr hge6)), if_pos ⟨hge6, hlt12⟩]
  rw [resortTarget, hhour, hocc]
  rw [show ((overshootConfig.num_standard_rooms + overshootConfig.num_suite_rooms : ℤ) : ℚ)
    = 404 by norm_num [overshootConfig, defaultConfig]]
  rw [pyInt_of_nonneg _ (by norm_num), show ((404 : ℚ) * 0.7) = 282.8 by norm_num,
    Int.floor_eq_iff]
  constructor <;> norm_num

/-- Band target of the overshoot run at hour 12 (step 48). -/
theorem overshootTarget_48 : resortTarget overshootConfig 48 = 242 := by
  have hmod : ((((48 : ℕ) : ℤ) * overshootConfig.time_step_minutes) % (24 * 60) : ℤ)
      = 720 := by decide
  have hhour : resortHour overshootConfig 48 = 12 := by
    rw [resortHour, hmod]
    norm_num
  have hocc : targetOccOfHour (12 : ℚ) = 0.6 := by
    simp only [targetOccOfHour]
    rw [if_neg (by norm_num), if_neg (by norm_num), if_pos (by norm_num)]
  rw [resortTarget, hhour, hocc]
  rw [show ((overshootConfig.num_standard_rooms + overshootConfig.num_suite_rooms : ℤ) : ℚ)
    = 404 by norm_num [overshootConfig, defaultConfig]]
  rw [pyInt_of_nonneg _ (by norm_num), show ((404 : ℚ) * 0.6) = 242.4 by norm_num,
    Int.floor_eq_iff]
  constructor <;> norm_num

/-- Claim C9 as stated is false in its "moving toward the target" part: with
189 standard rooms and 215 suites (step length 15 minutes), after 48 steps
the occupied total is 241 and the 12:00 band target is 242, yet step 49
moves the total to 237 — away from the target, which contradicts movement
toward it (the rate bound `|237 - 241| = 4 ≤ max(1, 404 // 20) = 20` itself
is respected). -/
theorem C9_counterexample :
    overshootOcc 48 = 241 ∧ overshootOcc 49 = 237
    ∧ resortTarget overshootConfig 48 = 242
    ∧ ¬ (|overshootOcc 49 - resortTarget overshootConfig 48|
          ≤ |overshootOcc 48 - resortTarget overshootConfig 48|) := by
  have p0 : overshootPair 0 = (0, 0) := rfl
  have p1 : overshootPair 1 = (16, 4) := by
    rw [overshootPair_succ 0, p0, overshootTarget_early 0 (by norm_num)]
    decide
  have p2 : overshootPair 2 = (32, 8) := by
    rw [overshootPair_succ 1, p1, overshootTarget_early 1 (by norm_num)]
    decide
  have p3 : overshootPair 3 = (48, 12) := by
    rw [overshootPair_succ 2, p2, overshootTarget_early 2 (by norm_num)]
    decide
  have p4 : overshootPair 4 = (64, 16) := by
    rw [overshootPair_succ 3, p3, overshootTarget_early 3 (by norm_num)]
    decide
  have p5 : overshootPair 5 = (80, 20) := by
    rw [overshootPair_succ 4, p4, overshootTarget_early 4 (by norm_num)]
    decide
  have p6 : overshootPair 6 = (96, 24) := by
    rw [overshootPair_succ 5, p5, overshootTarget_early 5 (by norm_num)]
    decide
  have p7 : overshootPair 7 = (112, 28) := by
    rw [overshootPair_succ 6, p6, overshootTarget_early 6 (by norm_num)]
    decide
  have p8 : overshootPair 8 = (128, 32) := by
    rw [overshootPair_succ 7, p7, overshootTarget_early 7 (by norm_num)]
    decide
  have p9 : overshootPair 9 = (144, 36) := by
    rw [overshootPair_succ 8, p8, overshootTarget_early 8 (by norm_num)]
    decide
  have p10 : overshootPair 10 = (160, 40) := by
    rw [overshootPair_succ 9, p9, overshootTarget_early 9 (by norm_num)]
    decide
  have p11 : overshootPair 11 = (176, 44) := by
    rw [overshootPair_succ 10, p10, overshootTarget_early 10 (by norm_num)]
    decide
  have p12 : overshootPair 12 = (189, 48) := by
    rw [overshootPair_succ 11, p11, overshootTarget_early 11 (by norm_num)]
    decide
  have p13 : overshootPair 13 = (189, 51) := by
    rw [overshootPair_succ 12, p12, overshootTarget_early 12 (by norm_num)]
    decide
  have p14 : overshootPair 14 = (189, 52) := by
    rw [overshootPair_succ 13, p13, overshootTarget_early 13 (by norm_num)]
    decide
  have p15 : overshootPair 15 = (189, 52) := by
    rw [overshootPair_succ 14, p14, overshootTarget_early 14 (by norm_num)]
    decide
  have p16 : overshootPair 16 = (189, 52) := by
    rw [overshootPair_succ 15, p15, overshootTarget_early 15 (by norm_num)]
    decide
  have p17 : overshootPair 17 = (189, 52) := by
    rw [overshootPair_succ 16, p16, overshootTarget_early 16 (by norm_num)]
    decide
  have p18 : overshootPair 18 = (189, 52) := by
    rw [overshootPair_succ 17, p17, overshootTarget_early 17 (by norm_num)]
    decide
  have p19 : overshootPair 19 = (189, 52) := by
    rw [overshootPair_succ 18, p18, overshootTarget_early 18 (by norm_num)]
    decide
  have p20 : overshootPair 20 = (189, 52) := by
    rw [overshootPair_succ 19, p19, overshootTarget_early 19 (by norm_num)]
    decide
  have p21 : overshootPair 21 = (189, 52) := by
    rw [overshootPair_succ 20, p20, overshootTarget_early 20 (by norm_num)]
    decide
  have p22 : overshootPair 22 = (189, 52) := by
    rw [overshootPair_succ 21, p21, overshootTarget_early 21 (by norm_num)]
    decide
  have p23 : overshootPair 23 = (189, 52) := by
    rw [overshootPair_succ 22, p22, overshootTarget_early 22 (by norm_num)]
    decide
  have p24 : overshootPair 24 = (189, 52) := by
    rw [overshootPair_succ 23, p23, overshootTarget_early 23 (by norm_num)]
    decide
  have p25 : overshootPair 25 = (189, 52) := by
    rw [overshootPair_succ 24, p24, overshootTarget_mid 24 (by norm_num) (by norm_num)]
    decide
  have p26 : overshootPair 26 = (189, 52) := by
    rw [overshootPair_succ 25, p25, overshootTarget_mid 25 (by norm_num) (by norm_num)]
    decide
  have p27 : overshootPair 27 = (189, 52) := by
    rw [overshootPair_succ 26, p26, overshootTarget_mid 26 (by norm_num) (by norm_num)]
    decide
  have p28 : overshootPair 28 = (189, 52) := by
    rw [overshootPair_succ 27, p27, overshootTarget_mid 27 (by norm_num) (by norm_num)]
    decide
  have p29 : overshootPair 29 = (189, 52) := by
    rw [overshootPair_succ 28, p28, overshootTarget_mid 28 (by norm_num) (by norm_num)]
    decide
  have p30 : overshootPair 30 = (189, 52) := by
    rw [overshootPair_succ 29, p29, overshootTarget_mid 29 (by norm_num) (by norm_num)]
    decide
  have p31 : overshootPair 31 = (189, 52) := by
    rw [overshootPair_succ 30, p30, overshootTarget_mid 30 (by norm_num) (by norm_num)]
    decide
  have p32 : overshootPair 32 = (189, 52) := by
    rw [overshootPair_succ 31, p31, overshootTarget_mid 31 (by norm_num) (by norm_num)]
    decide
  have p33 : overshootPair 33 = (189, 52) := by
    rw [overshootPair_succ 32, p32, overshootTarget_mid 32 (by norm_num) (by norm_num)]
    decide
  have p34 : overshootPair 34 = (189, 52) := by
    rw [overshootPair_succ 33, p33, overshootTarget_mid 33 (by norm_num) (by norm_num)]
    decide
  have p35 : overshootPair 35 = (189, 52) := by
    rw [overshootPair_succ 34, p34, overshootTarget_mid 34 (by norm_num) (by norm_num)]
    decide
  have p36 : overshootPair 36 = (189, 52) := by
    rw [overshootPair_succ 35, p35, overshootTarget_mid 35 (by norm_num) (by norm_num)]
    decide
  have p37 : overshootPair 37 = (189, 52) := by
    rw [overshootPair_succ 36, p36, overshootTarget_mid 36 (by norm_num) (by norm_num)]
    decide
  have p38 : overshootPair 38 = (189, 52) := by
    rw [overshootPair_succ 37, p37, overshootTarget_mid 37 (by norm_num) (by norm_num)]
    decide
  have p39 : overshootPair 39 = (189, 52) := by
    rw [overshootPair_succ 38, p38, overshootTarget_mid 38 (by norm_num) (by norm_num)]
    decide
  have p40 : overshootPair 40 = (189, 52) := by
    rw [overshootPair_succ 39, p39, overshootTarget_mid 39 (by norm_num) (by norm_num)]
    decide
  have p41 : overshootPair 41 = (189, 52) := by
    rw [overshootPair_succ 40, p40, overshootTarget_mid 40 (by norm_num) (by norm_num)]
    decide
  have p42 : overshootPair 42 = (189, 52) := by
    rw [overshootPair_succ 41, p41, overshootTarget_mid 41 (by norm_num) (by norm_num)]
    decide
  have p43 : overshootPair 43 = (189, 52) := by
    rw [overshootPair_succ 42, p42, overshootTarget_mid 42 (by norm_num) (by norm_num)]
    decide
  have p44 : overshootPair 44 = (189, 52) := by
    rw [overshootPair_succ 43, p43, overshootTarget_mid 43 (by norm_num) (by norm_num)]
    decide
  have p45 : overshootPair 45 = (189, 52) := by
    rw [overshootPair_succ 44, p44, overshootTarget_mid 44 (by norm_num) (by norm_num)]
    decide
  have p46 : overshootPair 46 = (189, 52) := by
    rw [overshootPair_succ 45, p45, overshootTarget_mid 45 (by norm_num) (by norm_num)]
    decide
  have p47 : overshootPair 47 = (189, 52) := by
    rw [overshootPair_succ 46, p46, overshootTarget_mid 46 (by norm_num) (by norm_num)]
    decide
  have p48 : overshootPair 48 = (189, 52) := by
    rw [overshootPair_succ 47, p47, overshootTarget_mid 47 (by norm_num) (by norm_num)]
    decide
  have p49 : overshootPair 49 = (189, 48) := by
    rw [overshootPair_succ 48, p48, overshootTarget_48]
    decide
  have hocc_eq : ∀ n : ℕ, overshootOcc n = (overshootPair n).1 + (overshootPair n).2 :=
    fun _ => rfl
  have h48 : overshootOcc 48 = 241 := by
    rw [hocc_eq, p48]
    decide
  have h49 : overshootOcc 49 = 237 := by
    rw [hocc_eq, p49]
    decide
  refine ⟨h48, h49, overshootTarget_48, ?_⟩
  rw [h48, h49, overshootTarget_48]
  decide

/-! ## Demand and physical-state bounds (claims C2 and C10) -/

theorem resortFracs_nonneg (hour : ℚ) :
    0 ≤ (resortFracs hour).1 ∧ 0 ≤ (resortFracs hour).2.1 ∧ 0 ≤ (resortFracs hour).2.2 := by
  simp only [resortFracs]
  set f1 := if 7 ≤ hour ∧ hour ≤ 10 then (0.4 : ℚ)
    else if 18 ≤ hour ∧ hour ≤ 22 then (0.5 : ℚ) else 0 with hf1
  set f2 := if 14 ≤ hour ∧ hour ≤ 18 then (0.25 : ℚ) else 0 with hf2
  have h1 : 0 ≤ f1 := by
    rw [hf1]
    split_ifs <;> norm_num
  have h2 : 0 ≤ f2 := by
    rw [hf2]
    split_ifs <;> norm_num
  split_ifs with hs
  · have hpos : (0 : ℚ) < f1 + f2 + 0.1 := by linarith
    have hsc : (0 : ℚ) ≤ 0.8 / (f1 + f2 + 0.1) := le_of_lt (div_pos (by norm_num) hpos)
    exact ⟨mul_nonneg h1 hsc, mul_nonneg h2 hsc, mul_nonneg (by norm_num) hsc⟩
  · exact ⟨h1, h2, by norm_num⟩

/-- The customer counts reported by `_resort_step` are non-negative whenever
the occupancy it just computed is. -/
theorem resortStep_customers_nonneg (cfg : SimulationConfig) (st : SimState)
    (hstd : 0 ≤ (resortStep cfg st).1.standard_rooms_occupied)
    (hsui : 0 ≤ (resortStep cfg st).1.suite_rooms_occupied) :
    0 ≤ (resortStep cfg st).2.restaurant_customers
    ∧ 0 ≤ (resortStep cfg st).2.spa_customers
    ∧ 0 ≤ (resortStep cfg st).2.lobby_customers := by
  have hfr := resortFracs_nonneg (resortHour cfg st.step)
  simp only [resortStep] at hstd hsui ⊢
  refine ⟨pyInt_nonneg _ (mul_nonneg ?_ hfr.1),
    pyInt_nonneg _ (mul_nonneg ?_ hfr.2.1),
    pyInt_nonneg _ (mul_nonneg ?_ hfr.2.2)⟩
  all_goals
    exact_mod_cast add_nonneg (mul_nonneg hstd (by norm_num))
      (mul_nonneg hsui (by norm_num))

theorem resortStep_out_std (cfg : SimulationConfig) (st : SimState) :
    (resortStep cfg st).2.standard_rooms_occupied
      = (resortStep cfg st).1.standard_rooms_occupied := rfl

theorem resortStep_out_sui (cfg : SimulationConfig) (st : SimState) :
    (resortStep cfg st).2.suite_rooms_occupied
      = (resortStep cfg st).1.suite_rooms_occupied := rfl

/-- The total demand of `_resort_step` decomposed over the reported
occupancy and customer counts (simulation.py lines 222-238). -/
theorem resortStep_demand_eq (cfg : SimulationConfig) (st : SimState) :
    (resortStep cfg st).2.total_demand_kw
      = ((resortStep cfg st).2.standard_rooms_occupied : ℚ) * cfg.standard_room_kw_per_room
        + ((resortStep cfg st).2.suite_rooms_occupied : ℚ) * cfg.suite_room_kw_per_room
        + (cfg.restaurant_base_kw
          + ((resortStep cfg st).2.restaurant_customers : ℚ) * cfg.restaurant_kw_per_customer)
        + (cfg.spa_base_kw
          + ((resortStep cfg st).2.spa_customers : ℚ) * cfg.spa_kw_per_customer)
        + (cfg.lobby_base_kw
          + ((resortStep cfg st).2.lobby_customers : ℚ) * cfg.lobby_kw_per_customer) := rfl

/-- The per-step demand is bounded below by the three shared-area base
loads, for every state reachable from reset. -/
theorem demand_lower_of_run (cfg : SimulationConfig) (sinFn : ℚ → ℚ) (now : ℤ) (n : ℕ)
    (hN : 0 ≤ cfg.num_standard_rooms) (hS : 0 ≤ cfg.num_suite_rooms)
    (hkstd : 0 ≤ cfg.standard_room_kw_per_room)
    (hksui : 0 ≤ cfg.suite_room_kw_per_room)
    (hrpc : 0 ≤ cfg.restaurant_kw_per_customer)
    (hspc : 0 ≤ cfg.spa_kw_per_customer)
    (hlpc : 0 ≤ cfg.lobby_kw_per_customer) :
    cfg.restaurant_base_kw + cfg.spa_base_kw + cfg.lobby_base_kw
      ≤ (resortStep cfg (stateAfter cfg sinFn now n)).2.total_demand_kw := by
  obtain ⟨o1, _, o3, _, _, _⟩ := stateAfter_occInv cfg sinFn now hN hS (n + 1)
  have hstd : 0 ≤ (resortStep cfg (stateAfter cfg sinFn now n)).1.standard_rooms_occupied := o1
  have hsui : 0 ≤ (resortStep cfg (stateAfter cfg sinFn now n)).1.suite_rooms_occupied := o3
  obtain ⟨hc1, hc2, hc3⟩ := resortStep_customers_nonneg cfg _ hstd hsui
  rw [resortStep_demand_eq, resortStep_out_std, resortStep_out_sui]
  have m1 : 0 ≤ ((resortStep cfg (stateAfter cfg sinFn now n)).1.standard_rooms_occupied : ℚ)
      * cfg.standard_room_kw_per_room :=
    mul_nonneg (by exact_mod_cast hstd) hkstd
  have m2 : 0 ≤ ((resortStep cfg (stateAfter cfg sinFn now n)).1.suite_rooms_occupied : ℚ)
      * cfg.suite_room_kw_per_room :=
    mul_nonneg (by exact_mod_cast hsui) hksui
  have m3 : 0 ≤ ((resortStep cfg (stateAfter cfg sinFn now n)).2.restaurant_customers : ℚ)
      * cfg.restaurant_kw_per_customer :=
    mul_nonneg (by exact_mod_cast hc1) hrpc
  have m4 : 0 ≤ ((resortStep cfg (stateAfter cfg sinFn now n)).2.spa_customers : ℚ)
      * cfg.spa_kw_per_customer :=
    mul_nonneg (by exact_mod_cast hc2) hspc
  have m5 : 0 ≤ ((resortStep cfg (stateAfter cfg sinFn now n)).2.lobby_customers : ℚ)
      * cfg.lobby_kw_per_customer :=
    mul_nonneg (by exact_mod_cast hc3) hlpc
  linarith

/-- Claim C10: with non-negative load coefficients and room counts, the
demand reported at every step is at least the sum of the three shared-area
base loads; in particular strictly positive base loads make every step's
demand strictly positive, so a zero-demand step never arises from the
demand model. -/
theorem C10_demand_at_least_base_loads (cfg : SimulationConfig) (sinFn : ℚ → ℚ)
    (now : ℤ) (n : ℕ)
    (hN : 0 ≤ cfg.num_standard_rooms) (hS : 0 ≤ cfg.num_suite_rooms)
    (hkstd : 0 ≤ cfg.standard_room_kw_per_room)
    (hksui : 0 ≤ cfg.suite_room_kw_per_room)
    (hrpc : 0 ≤ cfg.restaurant_kw_per_customer)
    (hspc : 0 ≤ cfg.spa_kw_per_customer)
    (hlpc : 0 ≤ cfg.lobby_kw_per_customer) :
    cfg.restaurant_base_kw + cfg.spa_base_kw + cfg.lobby_base_kw
      ≤ (recordAt cfg sinFn now n).demand_kw
    ∧ (0 < cfg.restaurant_base_kw → 0 < cfg.spa_base_kw → 0 < cfg.lobby_base_kw →
        0 < (recordAt cfg sinFn now n).demand_kw) := by
  have hdem : (recordAt cfg sinFn now n).demand_kw
      = (resortStep cfg (stateAfter cfg sinFn now n)).2.total_demand_kw := rfl
  have hlow := demand_lower_of_run cfg sinFn now n hN hS hkstd hksui hrpc hspc hlpc
  rw [hdem]
  exact ⟨hlow, fun h1 h2 h3 => by linarith⟩

/-- Concrete instance of C10 at the default configuration, first step. -/
theorem C10_demand_at_least_base_loads_witness :
    defaultConfig.restaurant_base_kw + defaultConfig.spa_base_kw
        + defaultConfig.lobby_base_kw
      ≤ (recordAt defaultConfig zeroSin 0 0).demand_kw
    ∧ (0 < defaultConfig.restaurant_base_kw → 0 < defaultConfig.spa_base_kw →
        0 < defaultConfig.lobby_base_kw →
        0 < (recordAt defaultConfig zeroSin 0 0).demand_kw) :=
  C10_demand_at_least_base_loads defaultConfig zeroSin 0 0
    (by norm_num [defaultConfig]) (by norm_num [defaultConfig])
    (by norm_num [defaultConfig]) (by norm_num [defaultConfig])
    (by norm_num [defaultConfig]) (by norm_num [defaultConfig])
    (by norm_num [defaultConfig])

theorem updateBatterySoc_bounds (cfg : SimulationConfig) (soc battery_kw : ℚ) :
    0 ≤ updateBatterySoc cfg soc battery_kw ∧ updateBatterySoc cfg soc battery_kw ≤ 1 := by
  simp only [updateBatterySoc]
  exact ⟨le_max_left _ _, max_le (by norm_num) (min_le_left _ _)⟩

theorem updateReservoir_bounds (cfg : SimulationConfig) (level hydro_kw : ℚ)
    (hh : 0 ≤ timeStepHours cfg) (hy : 0 ≤ hydro_kw) (hlev : 0 ≤ level) :
    0 ≤ updateReservoir cfg level hydro_kw ∧ updateReservoir cfg level hydro_kw ≤ level := by
  simp only [updateReservoir]
  constructor
  · exact le_max_left _ _
  · apply max_le hlev
    nlinarith [mul_nonneg (mul_nonneg hy hh) (by norm_num : (0:ℚ) ≤ (0.1 : ℚ))]

theorem hydroPowerKw_nonneg (cfg : SimulationConfig) (level : ℚ)
    (hturb : 0 ≤ cfg.max_turbine_kw) : 0 ≤ hydroPowerKw cfg level := by
  simp only [hydroPowerKw]
  split_ifs
  · exact le_rfl
  · exact mul_nonneg (le_max_left _ _) hturb

theorem inflowM3PerStep_nonneg (cfg : SimulationConfig) (sinFn : ℚ → ℚ) (k : ℕ)
    (hsin : ∀ x, |sinFn x| ≤ 1) (hbase : 0 ≤ cfg.base_inflow_m3_per_hour)
    (hh : 0 ≤ timeStepHours cfg) : 0 ≤ inflowM3PerStep cfg sinFn k := by
  simp only [inflowM3PerStep]
  have h1 := abs_le.mp (hsin ((((inflowWrappedMinutes cfg k : ℤ) : ℚ) / 60) / 24))
  have hfac : (0:ℚ)
      ≤ 1 + 0.2 * sinFn ((((inflowWrappedMinutes cfg k : ℤ) : ℚ) / 60) / 24) := by
    linarith [h1.1]
  exact mul_nonneg (mul_nonneg hbase hfac) hh

theorem dispatch_hydro_eq (cfg : SimulationConfig) (soc demand_kw max_hydro_kw : ℚ) :
    (dispatch cfg soc demand_kw max_hydro_kw).hydro_kw = min max_hydro_kw demand_kw := rfl

theorem stepOnce_reservoir_eq (cfg : SimulationConfig) (sinFn : ℚ → ℚ) (st : SimState) :
    (stepOnce cfg sinFn st).1.reservoir_level_m3
      = updateReservoir cfg
          (min cfg.max_reservoir_m3 (st.reservoir_level_m3 + inflowM3PerStep cfg sinFn st.step))
          (dispatch cfg st.battery_soc (resortStep cfg st).2.total_demand_kw
            (hydroPowerKw cfg (min cfg.max_reservoir_m3
              (st.reservoir_level_m3 + inflowM3PerStep cfg sinFn st.step)))).hydro_kw := rfl

theorem stepOnce_soc_eq (cfg : SimulationConfig) (sinFn : ℚ → ℚ) (st : SimState) :
    (stepOnce cfg sinFn st).1.battery_soc
      = updateBatterySoc cfg st.battery_soc
          (dispatch cfg st.battery_soc (resortStep cfg st).2.total_demand_kw
            (hydroPowerKw cfg (min cfg.max_reservoir_m3
              (st.reservoir_level_m3 + inflowM3PerStep cfg sinFn st.step)))).battery_kw := rfl

/-- Claim C2: for every configuration with non-negative parameters, positive
battery capacity, `min_reservoir_m3 < max_reservoir_m3` and
`time_step_minutes > 0` (and `sinFn` bounded like the real sine), after
reset and any number of steps the reservoir level stays in
`[0, max_reservoir_m3]` and the battery SoC in `[0, 1]`. -/
theorem C2_reservoir_and_soc_bounds (cfg : SimulationConfig) (sinFn : ℚ → ℚ) (now : ℤ)
    (hsin : ∀ x, |sinFn x| ≤ 1)
    (hdt : 0 < cfg.time_step_minutes)
    (hminmax : cfg.min_reservoir_m3 < cfg.max_reservoir_m3)
    (hmin0 : 0 ≤ cfg.min_reservoir_m3)
    (hbase : 0 ≤ cfg.base_inflow_m3_per_hour)
    (hturb : 0 ≤ cfg.max_turbine_kw)
    (hcap : 0 < cfg.battery_capacity_kwh)
    (hN : 0 ≤ cfg.num_standard_rooms) (hS : 0 ≤ cfg.num_suite_rooms)
    (hkstd : 0 ≤ cfg.standard_room_kw_per_room)
    (hksui : 0 ≤ cfg.suite_room_kw_per_room)
    (hrb : 0 ≤ cfg.restaurant_base_kw) (hrpc : 0 ≤ cfg.restaurant_kw_per_customer)
    (hsb : 0 ≤ cfg.spa_base_kw) (hspc : 0 ≤ cfg.spa_kw_per_customer)
    (hlb : 0 ≤ cfg.lobby_base_kw) (hlpc : 0 ≤ cfg.lobby_kw_per_customer) :
    ∀ n : ℕ,
      0 ≤ (stateAfter cfg sinFn now n).reservoir_level_m3
      ∧ (stateAfter cfg sinFn now n).reservoir_level_m3 ≤ cfg.max_reservoir_m3
      ∧ 0 ≤ (stateAfter cfg sinFn now n).battery_soc
      ∧ (stateAfter cfg sinFn now n).battery_soc ≤ 1
  | 0 => by
      show 0 ≤ cfg.max_reservoir_m3 * 0.5 ∧ cfg.max_reservoir_m3 * 0.5 ≤ cfg.max_reservoir_m3
        ∧ (0:ℚ) ≤ 0.5 ∧ (0.5:ℚ) ≤ 1
      refine ⟨by linarith, by linarith, by norm_num, by norm_num⟩
  | n + 1 => by
      obtain ⟨hr0, hr1, _, _⟩ := C2_reservoir_and_soc_bounds cfg sinFn now hsin hdt hminmax
        hmin0 hbase hturb hcap hN hS hkstd hksui hrb hrpc hsb hspc hlb hlpc n
      have hh : 0 ≤ timeStepHours cfg := by
        have : (0:ℚ) < (cfg.time_step_minutes : ℚ) := by exact_mod_cast hdt
        unfold timeStepHours
        positivity
      have hinf := inflowM3PerStep_nonneg cfg sinFn (stateAfter cfg sinFn now n).step
        hsin hbase hh
      have hdem0 : 0 ≤ (resortStep cfg (stateAfter cfg sinFn now n)).2.total_demand_kw := by
        have := demand_lower_of_run cfg sinFn now n hN hS hkstd hksui hrpc hspc hlpc
        linarith
      have hR1a : 0 ≤ min cfg.max_reservoir_m3
          ((stateAfter cfg sinFn now n).reservoir_level_m3
            + inflowM3PerStep cfg sinFn (stateAfter cfg sinFn now n).step) :=
        le_min (by linarith) (add_nonneg hr0 hinf)
      have hR1b : min cfg.max_reservoir_m3
          ((stateAfter cfg sinFn now n).reservoir_level_m3
            + inflowM3PerStep cfg sinFn (stateAfter cfg sinFn now n).step)
          ≤ cfg.max_reservoir_m3 := min_le_left _ _
      have hHK : 0 ≤ (dispatch cfg (stateAfter cfg sinFn now n).battery_soc
          (resortStep cfg (stateAfter cfg sinFn now n)).2.total_demand_kw
          (hydroPowerKw cfg (min cfg.max_reservoir_m3
            ((stateAfter cfg sinFn now n).reservoir_level_m3
              + inflowM3PerStep cfg sinFn (stateAfter cfg sinFn now n).step)))).hydro_kw := by
        rw [dispatch_hydro_eq]
        exact le_min (hydroPowerKw_nonneg cfg _ hturb) hdem0
      have hres := updateReservoir_bounds cfg
        (min cfg.max_reservoir_m3
          ((stateAfter cfg sinFn now n).reservoir_level_m3
            + inflowM3PerStep cfg sinFn (stateAfter cfg sinFn now n).step))
        ((dispatch cfg (stateAfter cfg sinFn now n).battery_soc
          (resortStep cfg (stateAfter cfg sinFn now n)).2.total_demand_kw
          (hydroPowerKw cfg (min cfg.max_reservoir_m3
            ((stateAfter cfg sinFn now n).reservoir_level_m3
              + inflowM3PerStep cfg sinFn (stateAfter cfg sinFn now n).step)))).hydro_kw)
        hh hHK hR1a
      have hsoc := updateBatterySoc_bounds cfg (stateAfter cfg sinFn now n).battery_soc
        ((dispatch cfg (stateAfter cfg sinFn now n).battery_soc
          (resortStep cfg (stateAfter cfg sinFn now n)).2.total_demand_kw
          (hydroPowerKw cfg (min cfg.max_reservoir_m3
            ((stateAfter cfg sinFn now n).reservoir_level_m3
              + inflowM3PerStep cfg sinFn (stateAfter cfg sinFn now n).step)))).battery_kw)
      refine ⟨?_, ?_, ?_, ?_⟩
      · show 0 ≤ (stepOnce cfg sinFn (stateAfter cfg sinFn now n)).1.reservoir_level_m3
        rw [stepOnce_reservoir_eq]
        exact hres.1
      · show (stepOnce cfg sinFn (stateAfter cfg sinFn now n)).1.reservoir_level_m3
          ≤ cfg.max_reservoir_m3
        rw [stepOnce_reservoir_eq]
        exact le_trans hres.2 hR1b
      · show 0 ≤ (stepOnce cfg sinFn (stateAfter cfg sinFn now n)).1.battery_soc
        rw [stepOnce_soc_eq]
        exact hsoc.1
      · show (stepOnce cfg sinFn (stateAfter cfg sinFn now n)).1.battery_soc ≤ 1
        rw [stepOnce_soc_eq]
        exact hsoc.2

/-- Concrete instance of C2 at the default configuration after three steps. -/
theorem C2_reservoir_and_soc_bounds_witness :
    0 ≤ (stateAfter defaultConfig zeroSin 0 3).reservoir_level_m3
    ∧ (stateAfter defaultConfig zeroSin 0 3).reservoir_level_m3
        ≤ defaultConfig.max_reservoir_m3
    ∧ 0 ≤ (stateAfter defaultConfig zeroSin 0 3).battery_soc
    ∧ (stateAfter defaultConfig zeroSin 0 3).battery_soc ≤ 1 :=
  C2_reservoir_and_soc_bounds defaultConfig zeroSin 0
    (fun x => by norm_num [zeroSin])
    (by norm_num [defaultConfig]) (by norm_num [defaultConfig])
    (by norm_num [defaultConfig]) (by norm_num [defaultConfig])
    (by norm_num [defaultConfig]) (by norm_num [defaultConfig])
    (by norm_num [defaultConfig]) (by norm_num [defaultConfig])
    (by norm_num [defaultConfig]) (by norm_num [defaultConfig])
    (by norm_num [defaultConfig]) (by norm_num [defaultConfig])
    (by norm_num [defaultConfig]) (by norm_num [defaultConfig])
    (by norm_num [defaultConfig]) (by norm_num [defaultConfig]) 3

end HydroEMSS
